import Mathlib

/-!
Verification development for the `build_manager.py` workflow orchestrator.

The Python module drives a fixed nine-step firmware build pipeline.  We give a
shallow embedding of its workflow engine: the filesystem it mutates is a pure
value, external processes are oracles supplied by an `Env`, and every step is a
pure function returning the mutated filesystem, the list of side effects it
performed, the summary records it appended, and whether it returned normally or
raised an exception.
-/

namespace BuildManager

/-! ## Basic string utilities (structural recursions, evaluable by the kernel) -/

/-- Split a character list on a separator character; mirrors Python
`str.split(sep)` for a one-character separator. -/
def splitOnCharAux (c : Char) : List Char → List (List Char)
  | [] => [[]]
  | x :: xs =>
    if x = c then [] :: splitOnCharAux c xs
    else
      match splitOnCharAux c xs with
      | [] => [[x]]
      | g :: gs => (x :: g) :: gs

def splitOnCharS (c : Char) (s : String) : List String :=
  (splitOnCharAux c s.data).map String.mk

/-- Join strings with a separator, mirroring `sep.join(parts)`. -/
def concatSep (sep : String) : List String → String
  | [] => ""
  | [x] => x
  | x :: xs => x ++ sep ++ concatSep sep xs

def isWsChar (c : Char) : Bool :=
  c = ' ' || c = '\t' || c = '\n' || c = '\r'

/-- Python `str.strip()`. -/
def trimStr (s : String) : String :=
  String.mk (((s.data.dropWhile isWsChar).reverse.dropWhile isWsChar).reverse)

/-- Python `str.lower()` (ASCII, sufficient for the CLI keywords). -/
def lowerStr (s : String) : String :=
  String.mk (s.data.map Char.toLower)

/-- Contiguous-sublist test on lists (the kernel can evaluate it). -/
def isInfixOfL (l₁ : List Char) : List Char → Bool
  | [] => l₁.isEmpty
  | x :: xs => l₁.isPrefixOf (x :: xs) || isInfixOfL l₁ xs

/-- Python `needle in haystack` substring test. -/
def containsSub (needle haystack : String) : Bool :=
  isInfixOfL needle.data haystack.data

/-- Python `sep in s` for a one-character separator. -/
def containsChar (c : Char) (s : String) : Bool :=
  s.data.contains c

/-! ## Filesystem model -/

def setAssoc {α : Type} (k : String) (v : α) : List (String × α) → List (String × α)
  | [] => [(k, v)]
  | (k₀, v₀) :: rest => if k₀ = k then (k, v) :: rest else (k₀, v₀) :: setAssoc k v rest

def getAssoc {α : Type} (k : String) : List (String × α) → Option α
  | [] => none
  | (k₀, v₀) :: rest => if k₀ = k then some v₀ else getAssoc k rest

/-- Pure filesystem: text files with contents and modification stamps, plus a
set of directories.  `clock` is a logical time; each write stamps the file with
the next tick, modelling the mtime update done by the OS. -/
structure FS where
  files : List (String × String)
  mtimes : List (String × Nat)
  dirs : List String
deriving DecidableEq

/-- Logical clock: one tick per write ever performed. -/
def FS.clock (fs : FS) : Nat :=
  (fs.mtimes.map Prod.snd).foldl Nat.max 0

def FS.read (fs : FS) (p : String) : Option String :=
  getAssoc p fs.files

def FS.fileExists (fs : FS) (p : String) : Bool :=
  (fs.read p).isSome

def FS.dirExists (fs : FS) (p : String) : Bool :=
  fs.dirs.contains p

def FS.mtimeOf (fs : FS) (p : String) : Option Nat :=
  getAssoc p fs.mtimes

/-- `path.write_text`: create or overwrite, stamping a fresh mtime. -/
def FS.writeF (fs : FS) (p c : String) : FS :=
  { files := setAssoc p c fs.files
    mtimes := setAssoc p (fs.clock + 1) fs.mtimes
    dirs := fs.dirs }

def splitPath (p : String) : List String :=
  splitOnCharS '/' p

def lastComponent (p : String) : String :=
  (splitPath p).getLastD ""

def parentOf (p : String) : String :=
  concatSep "/" (splitPath p).dropLast

/-- All ancestor prefixes of a path, innermost last. -/
def pathPrefixes (p : String) : List String :=
  let comps := splitPath p
  (List.range comps.length).map (fun i => concatSep "/" (comps.take (i + 1)))

def addDirs (ds : List String) : List String → List String
  | [] => ds
  | d :: rest => addDirs (if ds.contains d then ds else ds ++ [d]) rest

/-- `Path.mkdir(parents=True, exist_ok=True)`. -/
def FS.mkdirp (fs : FS) (p : String) : FS :=
  { fs with dirs := addDirs fs.dirs (pathPrefixes p) }

/-- True when `p` equals `root` or lies strictly below it. -/
def isUnder (root p : String) : Bool :=
  root = p || (root ++ "/").data.isPrefixOf p.data

/-- `shutil.rmtree`: drop everything at or below `root`. -/
def removeTreeFS (fs : FS) (root : String) : FS :=
  { files := fs.files.filter (fun pr => !(isUnder root pr.1))
    mtimes := fs.mtimes.filter (fun pr => !(isUnder root pr.1))
    dirs := fs.dirs.filter (fun d => !(isUnder root d)) }

def removeFileFS (fs : FS) (p : String) : FS :=
  { files := fs.files.filter (fun pr => pr.1 ≠ p)
    mtimes := fs.mtimes.filter (fun pr => pr.1 ≠ p)
    dirs := fs.dirs }

/-- Rebase a path below `src` to the same relative location below `dst`. -/
def rebasePath (src dst p : String) : String :=
  dst ++ String.mk (p.data.drop src.data.length)

def writeMany (fs : FS) : List (String × String) → FS
  | [] => fs
  | (p, c) :: rest => writeMany (fs.writeF p c) rest

/-- `shutil.copytree(src, dst)`: replicate every file and directory below
`src` at the corresponding location below `dst`. -/
def copyTreeFS (fs : FS) (src dst : String) : FS :=
  let newDirs := fs.dirs.filterMap
    (fun d => if isUnder src d then some (rebasePath src dst d) else none)
  let newFiles := fs.files.filterMap
    (fun pr => if isUnder src pr.1 then some (rebasePath src dst pr.1, pr.2) else none)
  writeMany { fs with dirs := addDirs fs.dirs newDirs } newFiles

/-! ## Side effects and the external environment -/

/-- One observable side effect of a step.  `logE` is a write to the log file
(mirrored to the console); everything else touches the filesystem or spawns a
process. -/
inductive Effect where
  | mkdirE (path : String)
  | mkdtempE (path : String)
  | writeE (path : String) (content : String)
  | appendE (path : String) (content : String)
  | chmodE (path : String)
  | removeE (path : String)
  | copyE (src : String) (dst : String)
  | procE (cmd : List String)
  | logE (level : String) (msg : String)
deriving DecidableEq

def Effect.isProcCall : Effect → Bool
  | .procE _ => true
  | _ => false

def Effect.isFsMutation : Effect → Bool
  | .mkdirE _ => true
  | .mkdtempE _ => true
  | .writeE _ _ => true
  | .appendE _ _ => true
  | .chmodE _ => true
  | .removeE _ => true
  | .copyE _ _ => true
  | _ => false

def Effect.isDirCreation : Effect → Bool
  | .mkdirE _ => true
  | .mkdtempE _ => true
  | _ => false

/-- A file found by the `verify_artifacts` glob. -/
structure Artifact where
  path : String
  mtime : Nat
  data : String
deriving DecidableEq

/-- External world: which tools resolve on PATH, exit codes and standard
output of spawned processes, the artefact glob result, the SHA-256 oracle, the
processor count, and the name `tempfile.mkdtemp` picks. -/
structure Env where
  fs : FS
  toolOnPath : String → Bool
  procExit : List String → Nat
  procOut : List String → String
  globMatches : List Artifact
  sha256 : String → String
  cpuCount : Nat
  tempName : String

/-! ## Configuration (built-in defaults of the `CONFIG` table) -/

def buildRoot : String := "./builder_workspace"
def repoName : String := "immortalwrt"
def repoDir : String := buildRoot ++ "/" ++ repoName
def overlayDir : String := repoDir ++ "/files"
def vendorAssetsLocal : String := "./builder_workspace/vendor_assets"
def backupLocalDir : String := "~/ra74-backups"
def backupRemote : String := "root@192.168.1.190"
def vendorRemote : String := "root@192.168.1.190"
def vendorRemoteBase : String := "/lib/firmware"
def repoBranch : String := "master"
def repoUrl : String := "https://github.com/immortalwrt/immortalwrt.git"
def artifactGlob : String := "bin/targets/qualcommax/ipq50xx/*ra74*sysupgrade*.bin"
def checksumsName : String := "checksums.sha256"

def requiredTools : List String :=
  ["git", "ssh", "scp", "rsync", "make", "awk", "tar", "python3", "xz"]

/-- The `"0" * 64` placeholder digest used by dry-run verification. -/
def zeros64 : String := String.mk (List.replicate 64 '0')

/-! ## Command runner -/

/-- `BuildManager._run_command`.  Returns the effects performed and `some rc`
on normal return; `none` models a raised `CalledProcessError` (non-zero exit
with `check=True` in non-interactive mode). -/
def run_command (env : Env) (dry : Bool) (cmd : List String)
    (check : Bool) (interactive : Bool) : List Effect × Option Nat :=
  let intro := Effect.logE "INFO" ("Executing command: " ++ concatSep " " cmd)
  if dry then
    ([intro, Effect.logE "OK" "Dry-run mode: command skipped."], some 0)
  else if interactive then
    ([intro, Effect.procE cmd], some (env.procExit cmd))
  else if check && env.procExit cmd != 0 then
    ([intro, Effect.procE cmd], none)
  else
    ([intro, Effect.procE cmd], some (env.procExit cmd))

structure CmdFileResult where
  fs : FS
  effects : List Effect
  ok : Bool

/-- `BuildManager._run_command_to_file`.  Non-dry execution opens the
destination with mode `"wb"` — truncating whatever was there — and the process
then streams its standard output (`procOut`, possibly empty on failure) into
it.  With `allow_failure` a non-zero exit only logs a warning; otherwise it is
a raised `CalledProcessError` (`ok := false`). -/
def run_command_to_file (env : Env) (dry : Bool) (fs : FS) (cmd : List String)
    (destination : String) (allowFailure : Bool) : CmdFileResult :=
  let intro := Effect.logE "INFO"
    ("Streaming command output to " ++ destination ++ ": " ++ concatSep " " cmd)
  if dry then
    { fs := fs
      effects := [intro, Effect.logE "OK"
        ("Dry-run mode: would capture command output to " ++ destination ++ ".")]
      ok := true }
  else
    let fs1 := (fs.mkdirp (parentOf destination)).writeF destination (env.procOut cmd)
    let rc := env.procExit cmd
    let effs := [intro, Effect.mkdirE (parentOf destination), Effect.procE cmd,
      Effect.writeE destination (env.procOut cmd)]
    if rc != 0 && !allowFailure then
      { fs := fs1, effects := effs, ok := false }
    else if rc != 0 && allowFailure then
      { fs := fs1
        effects := effs ++ [Effect.logE "WARN" ("Command returned " ++ toString rc ++
          "; kept existing data for " ++ destination ++ ".")]
        ok := true }
    else
      { fs := fs1
        effects := effs ++ [Effect.logE "OK" ("Captured output to " ++ destination ++ ".")]
        ok := true }

/-- `BuildManager._write_file`: dry-run logs and returns; otherwise it creates
the parent directories and writes the content unconditionally. -/
def write_file (dry : Bool) (fs : FS) (path content : String) : FS × List Effect :=
  if dry then
    (fs, [Effect.logE "OK" ("Dry-run mode: would write file " ++ path ++ ".")])
  else
    ((fs.mkdirp (parentOf path)).writeF path content,
     [Effect.mkdirE (parentOf path), Effect.writeE path content,
      Effect.logE "OK" ("Wrote " ++ path ++ ".")])

/-! ## Fixed file contents injected by `apply_custom_configs` and the overlay -/

/-- The RA74 device-tree fragment (`dts_content` in the source, after
`textwrap.dedent(...).strip() + "\n"`). -/
def dts_content : String := concatSep "\n"
  [ "// SPDX-License-Identifier: GPL-2.0-or-later"
  , "/dts-v1/;"
  , ""
  , "#include \"ipq5018.dtsi\""
  , "#include <dt-bindings/gpio/gpio.h>"
  , "#include <dt-bindings/input/input.h>"
  , ""
  , "/ \x7b"
  , "    model = \"Xiaomi Redmi AX5400 (RA74)\";"
  , "    compatible = \"xiaomi,redmi-ra74\", \"qcom,ipq5018\";"
  , ""
  , "    aliases \x7b"
  , "        serial0 = &blsp1_uart1;"
  , "        led-boot = &led_power;"
  , "        led-failsafe = &led_power;"
  , "        led-running = &led_power;"
  , "        led-upgrade = &led_power;"
  , "    \x7d;"
  , ""
  , "    chosen \x7b"
  , "        // Bootloader parameters confirmed on stock firmware."
  , "        bootargs-override = \"ubi.mtd=rootfs_1 root=mtd:ubi_rootfs rootfstype=squashfs rootwait\";"
  , "        stdout-path = \"serial0:115200n8\";"
  , "    \x7d;"
  , ""
  , "    leds \x7b"
  , "        compatible = \"gpio-leds\";"
  , "        led_power: power \x7b"
  , "            label = \"ra74:green:power\";"
  , "            gpios = <&tlmm 10 GPIO_ACTIVE_HIGH>; /* TODO: adjust GPIO */"
  , "            default-state = \"on\";"
  , "        \x7d;"
  , "    \x7d;"
  , ""
  , "    keys \x7b"
  , "        compatible = \"gpio-keys\";"
  , "        reset \x7b"
  , "            label = \"reset\";"
  , "            gpios = <&tlmm 12 GPIO_ACTIVE_LOW>; /* TODO: adjust GPIO */"
  , "            linux,code = <KEY_RESTART>;"
  , "        \x7d;"
  , "    \x7d;"
  , "\x7d;"
  , ""
  , "/* UART */"
  , "&blsp1_uart1 \x7b status = \"okay\"; \x7d;"
  , ""
  , "/* Additional peripherals can be enabled incrementally. */"
  ] ++ "\n"

/-- The device-recipe stanza (`stanza` in the source; the backslash-newline in
the Python literal joins the `DEVICE_PACKAGES` line, leaving the continuation
line's 21 spaces in place). -/
def stanza : String := concatSep "\n"
  [ "define Device/xiaomi_redmi_ra74"
  , "  DEVICE_VENDOR := Xiaomi"
  , "  DEVICE_MODEL := Redmi AX5400 (RA74)"
  , "  DEVICE_DTS := qcom/ipq5018-redmi-ra74"
  , "  SOC := ipq5018"
  , "  IMAGE/sysupgrade.bin := sysupgrade-tar"
  , "  UBINIZE_OPTS := -E 5"
  , "  BLOCKSIZE := 128k"
  , "  PAGESIZE := 2048"
  , "  KERNEL_SIZE := 4096k"
  , "  KERNEL := kernel-bin | lzma | uImage lzma"
  , "  DEVICE_PACKAGES := kmod-ath11k-pci ath11k-firmware-ipq5018 wpad-basic-mbedtls                      irqbalance ethtool"
  , "  SUPPORTED_DEVICES := xiaomi,redmi-ra74"
  , "endef"
  , "TARGET_DEVICES += xiaomi_redmi_ra74"
  ] ++ "\n"

/-- The substring `apply_custom_configs` looks for in `generic.mk`. -/
def deviceMarker : String := "Device/xiaomi_redmi_ra74"

/-- The first-boot configuration script placed in the overlay
(`textwrap.dedent(...).strip()`; `\x27` is a single quote). -/
def uciDefaultsContent : String := concatSep "\n"
  [ "#!/bin/sh"
  , "# Configure Redmi AX5400 (RA74) as a dumb AP on first boot."
  , "uci set network.lan.ipaddr=\x27192.168.1.190\x27"
  , "uci set network.lan.proto=\x27static\x27"
  , "uci set network.lan.netmask=\x27255.255.255.0\x27"
  , "uci delete network.wan 2>/dev/null"
  , "uci delete network.wan6 2>/dev/null"
  , ""
  , "uci set dhcp.lan.ignore=\x271\x27"
  , ""
  , "uci set wireless.@wifi-device[0].country=\x27GB\x27"
  , "uci set wireless.@wifi-device[1].country=\x27GB\x27"
  , "uci set wireless.@wifi-iface[0].disabled=\x270\x27"
  , "uci set wireless.@wifi-iface[1].disabled=\x270\x27"
  , ""
  , "uci set firewall.@defaults[0].syn_flood=\x270\x27"
  , "uci set firewall.@defaults[0].input=\x27ACCEPT\x27"
  , "uci set firewall.@defaults[0].forward=\x27ACCEPT\x27"
  , "uci set firewall.@defaults[0].output=\x27ACCEPT\x27"
  , "/etc/init.d/firewall disable 2>/dev/null"
  , ""
  , "uci commit"
  ]

/-! ## Workflow steps -/

/-- Result of one step invocation: the mutated filesystem, the effects in
program order, the summary records appended (via `_record_summary`), the
temporary paths registered for cleanup, and whether the step returned normally
(`ok = true`) or raised (`ok = false`). -/
structure StepResult where
  fs : FS
  effects : List Effect
  records : List (String × String)
  cleanupAdds : List String
  ok : Bool

/-- `BuildManager.preflight_checks`.  Note: it probes `shutil.which` even in
dry-run and fails (recording `FAILED`) whenever a required tool is missing. -/
def preflight_checks (env : Env) (_dry : Bool) : StepResult :=
  let intro := Effect.logE "INFO" "Running preflight checks."
  let missing := requiredTools.filter (fun t => !env.toolOnPath t)
  if missing.isEmpty then
    { fs := env.fs
      effects := [intro, Effect.logE "OK" "All required tooling is available."]
      records := [("Preflight checks", "OK")], cleanupAdds := [], ok := true }
  else
    { fs := env.fs
      effects := [intro,
        Effect.logE "ERR" ("Missing required tools: " ++ concatSep ", " missing)]
      records := [("Preflight checks", "FAILED")], cleanupAdds := [], ok := false }

/-! ### Backup step -/

def infoCommands : List (String × List String) :=
  [ ("proc-mtd.txt", ["ssh", backupRemote, "cat /proc/mtd"])
  , ("dmesg.txt", ["ssh", backupRemote, "dmesg"])
  , ("cmdline.txt", ["ssh", backupRemote, "cat /proc/cmdline"]) ]

def defaultPartitionSpec : String :=
  "mtd22:kernel,mtd23:ubi_rootfs,mtd20:overlay,mtd24:data,mtd13:ART"

/-- The `BUILD_BACKUP_PARTITIONS` parser from `backup_important_files`:
comma-separated entries, each `device:label` (`label` defaults to the device),
blank entries skipped, all components stripped. -/
def parsePartitions (spec : String) : List (String × String) :=
  (splitOnCharS ',' spec).filterMap (fun entry =>
    let e := trimStr entry
    if e = "" then none
    else if containsChar ':' e then
      match splitOnCharS ':' e with
      | [] => none
      | nm :: rest => some (trimStr nm, trimStr (concatSep ":" rest))
    else some (trimStr e, trimStr e))

def partitionCommands : List (String × List String) :=
  (parsePartitions defaultPartitionSpec).map (fun pr =>
    (if pr.2 ≠ "" then pr.1 ++ "-" ++ pr.2 ++ ".bin" else pr.1 ++ ".bin",
     ["ssh", backupRemote, "dd if=/dev/" ++ pr.1 ++ " bs=1M"]))

/-- Stream each command's output into its file under the backup directory
(`_run_command_to_file` with default `allow_failure=False`), stopping at the
first raised failure. -/
def streamAll (env : Env) (dry : Bool) (fs : FS) :
    List (String × List String) → FS × List Effect × Bool
  | [] => (fs, [], true)
  | (fname, cmd) :: rest =>
    let r := run_command_to_file env dry fs cmd (backupLocalDir ++ "/" ++ fname) false
    if r.ok then
      match streamAll env dry r.fs rest with
      | (fs2, effs, okRest) => (fs2, r.effects ++ effs, okRest)
    else (r.fs, r.effects, false)

/-- One directory entry seen by `backup_target.iterdir()`. -/
structure DirEntry where
  name : String
  isDir : Bool
  content : String
deriving DecidableEq

/-- Directory listing: files and subdirectories whose parent is `dir`. -/
def FS.listing (fs : FS) (dir : String) : List DirEntry :=
  (fs.files.filterMap (fun pr =>
    if parentOf pr.1 = dir then some ⟨lastComponent pr.1, false, pr.2⟩ else none))
  ++ (fs.dirs.filterMap (fun d =>
    if parentOf d = dir then some ⟨lastComponent d, true, ""⟩ else none))

@[reducible] def entryLe (a b : DirEntry) : Prop := a.name ≤ b.name

instance : DecidableRel entryLe := fun a b => by
  unfold entryLe
  exact inferInstance

/-- The manifest body written by `backup_important_files`: iterate the backup
directory in sorted order, skip the manifest itself and directories, and emit
one `<digest>  <name>` line per remaining file. -/
def checksumLines (sha : String → String) (entries : List DirEntry) : List String :=
  ((List.insertionSort entryLe entries).filter
      (fun e => !(e.name = checksumsName) && !e.isDir)).map
    (fun e => sha e.content ++ "  " ++ e.name)

def manifestText (lines : List String) : String :=
  lines.foldl (fun acc l => acc ++ l ++ "\n") ""

/-- `BuildManager.backup_important_files`.  The backup directory is created
even in dry-run; the info and partition transfers go through
`_run_command_to_file`; afterwards the checksum manifest is written (skipped in
dry-run). -/
def backup_important_files (env : Env) (dry : Bool) : StepResult :=
  let intro := Effect.logE "INFO" "Backing up critical router data over SSH."
  let fs0 := env.fs.mkdirp backupLocalDir
  let e0 := [intro, Effect.mkdirE backupLocalDir]
  match streamAll env dry fs0 (infoCommands ++ partitionCommands) with
  | (fs1, effs, false) =>
    { fs := fs1, effects := e0 ++ effs, records := [], cleanupAdds := [], ok := false }
  | (fs1, effs, true) =>
    let stored := Effect.logE "OK" ("Backups stored under " ++ backupLocalDir)
    if dry then
      { fs := fs1
        effects := e0 ++ effs ++
          [Effect.logE "OK" "Dry-run mode: would generate SHA256 sums for backups.", stored]
        records := [("Backup", "OK")], cleanupAdds := [], ok := true }
    else
      let manifestPath := backupLocalDir ++ "/" ++ checksumsName
      let text := manifestText (checksumLines env.sha256 (fs1.listing backupLocalDir))
      { fs := fs1.writeF manifestPath text
        effects := e0 ++ effs ++ [Effect.writeE manifestPath text,
          Effect.logE "OK" ("Wrote backup checksums to " ++ manifestPath ++ "."), stored]
        records := [("Backup", "OK")], cleanupAdds := [], ok := true }

/-! ### Vendor-fetch step -/

def vendorTargets : List (String × Bool) :=
  [("IPQ5018", false), ("qcn9000", true), ("qca-nss0-retail.bin", true)]

/-- The rsync loop of `fetch_vendor_blobs`: mandatory failure records nothing
here but aborts; optional failure warns and continues. -/
def fetchLoop (env : Env) (dry : Bool) : List (String × Bool) → List Effect × Bool
  | [] => ([], true)
  | (name, opt) :: rest =>
    let intro := Effect.logE "INFO" ("Syncing " ++ vendorRemoteBase ++ "/" ++ name ++
      " from " ++ vendorRemote ++ " into " ++ vendorAssetsLocal ++ ".")
    if dry then
      match fetchLoop env dry rest with
      | (effs, okRest) =>
        (intro :: Effect.logE "OK"
          ("Dry-run mode: would transfer " ++ name ++ " to local vendor assets.") :: effs,
         okRest)
    else
      let cmd := ["rsync", "-av",
        vendorRemote ++ ":" ++ vendorRemoteBase ++ "/" ++ name, vendorAssetsLocal]
      if env.procExit cmd != 0 then
        if opt then
          match fetchLoop env dry rest with
          | (effs, okRest) =>
            (intro :: Effect.procE cmd :: Effect.logE "WARN"
              ("Failed to fetch " ++ name ++ ". Continuing; file marked optional.") :: effs,
             okRest)
        else
          ([intro, Effect.procE cmd, Effect.logE "ERR" ("Failed to fetch " ++ name ++ ".")],
           false)
      else
        match fetchLoop env dry rest with
        | (effs, okRest) =>
          (intro :: Effect.procE cmd :: Effect.logE "OK"
            ("Fetched " ++ name ++ " into vendor assets directory.") :: effs,
           okRest)

/-- `BuildManager.fetch_vendor_blobs`.  The vendor-assets directory is created
even in dry-run; a mandatory transfer failure records `FAILED` and raises. -/
def fetch_vendor_blobs (env : Env) (dry : Bool) : StepResult :=
  let intro := Effect.logE "INFO" "Fetching vendor firmware and NSS blobs via rsync/scp."
  let fs0 := env.fs.mkdirp vendorAssetsLocal
  match fetchLoop env dry vendorTargets with
  | (effs, true) =>
    { fs := fs0
      effects := intro :: Effect.mkdirE vendorAssetsLocal :: effs ++
        [Effect.logE "OK" ("Vendor assets available at " ++ vendorAssetsLocal)]
      records := [("Vendor assets", "OK")], cleanupAdds := [], ok := true }
  | (effs, false) =>
    { fs := fs0
      effects := intro :: Effect.mkdirE vendorAssetsLocal :: effs
      records := [("Vendor assets", "FAILED")], cleanupAdds := [], ok := false }

/-! ### Repository-sync step -/

/-- Shared tail of `clone_or_update_repo`: dry-run placeholder creation of the
repository directory, then the feeds update/install (skipped in dry-run). -/
def repoSyncTail (env : Env) (dry : Bool) (fs : FS) (effs : List Effect) : StepResult :=
  let (fs1, e1) :=
    if dry && !fs.dirExists repoDir then
      (fs.mkdirp repoDir,
       [Effect.logE "WARN"
          "Dry-run mode: creating placeholder repository directory for subsequent steps.",
        Effect.mkdirE repoDir])
    else (fs, [])
  if dry then
    { fs := fs1
      effects := effs ++ e1 ++
        [Effect.logE "OK" "Dry-run mode: would run feeds update -a and install -a.",
         Effect.logE "OK" "Repository synchronised."]
      records := [("Repository sync", "OK")], cleanupAdds := [], ok := true }
  else
    let (e2, r2) := run_command env dry ["./scripts/feeds", "update", "-a"] true false
    match r2 with
    | none =>
      { fs := fs1, effects := effs ++ e1 ++ e2, records := [], cleanupAdds := [], ok := false }
    | some _ =>
      let (e3, r3) := run_command env dry ["./scripts/feeds", "install", "-a"] true false
      match r3 with
      | none =>
        { fs := fs1, effects := effs ++ e1 ++ e2 ++ e3, records := [], cleanupAdds := [],
          ok := false }
      | some _ =>
        { fs := fs1
          effects := effs ++ e1 ++ e2 ++ e3 ++ [Effect.logE "OK" "Repository synchronised."]
          records := [("Repository sync", "OK")], cleanupAdds := [], ok := true }

/-- `BuildManager.clone_or_update_repo`.  Fetch+hard-reset when the repository
directory exists, otherwise clone (creating the build root first, also in
dry-run).  A failing git command raises without recording anything. -/
def clone_or_update_repo (env : Env) (dry : Bool) : StepResult :=
  let intro := Effect.logE "INFO" "Synchronising build repository."
  if env.fs.dirExists repoDir then
    let head := [intro, Effect.logE "INFO" "Repository exists; fetching updates."]
    let (e1, r1) := run_command env dry ["git", "fetch", "--all"] true false
    match r1 with
    | none =>
      { fs := env.fs, effects := head ++ e1, records := [], cleanupAdds := [], ok := false }
    | some _ =>
      let (e2, r2) := run_command env dry
        ["git", "reset", "--hard", "origin/" ++ repoBranch] true false
      match r2 with
      | none =>
        { fs := env.fs, effects := head ++ e1 ++ e2, records := [], cleanupAdds := [],
          ok := false }
      | some _ => repoSyncTail env dry env.fs (head ++ e1 ++ e2)
  else
    let fs0 := env.fs.mkdirp buildRoot
    let head := [intro, Effect.mkdirE buildRoot]
    let (e1, r1) := run_command env dry
      ["git", "clone", "--branch", repoBranch, repoUrl, repoDir] true false
    match r1 with
    | none =>
      { fs := fs0, effects := head ++ e1, records := [], cleanupAdds := [], ok := false }
    | some _ =>
      -- a successful real clone materialises the repository directory
      let fs1 := if dry then fs0 else fs0.mkdirp repoDir
      repoSyncTail env dry fs1 (head ++ e1)

/-! ### Config-patch step -/

def dtsPath : String :=
  repoDir ++ "/target/linux/qualcommax/files-6.6/arch/arm64/boot/dts/qcom/ipq5018-redmi-ra74.dts"

def makefilePath : String :=
  repoDir ++ "/target/linux/qualcommax/image/generic.mk"

/-- `BuildManager.apply_custom_configs`.  Raises (recording nothing) when the
repository is missing; writes the DTS only when its content differs; raises
when `generic.mk` is absent; appends the stanza only when the marker substring
is absent. -/
def apply_custom_configs (env : Env) (dry : Bool) : StepResult :=
  let intro := Effect.logE "INFO" "Applying custom configuration files."
  if !env.fs.dirExists repoDir then
    { fs := env.fs, effects := [intro], records := [], cleanupAdds := [], ok := false }
  else
    let (fsA, eA) :=
      if dry then
        (env.fs,
         [Effect.logE "OK" ("Dry-run mode: would ensure " ++ dtsPath ++ " contains RA74 DTS.")])
      else
        let current := (env.fs.read dtsPath).getD ""
        if current ≠ dts_content then
          ((env.fs.mkdirp (parentOf dtsPath)).writeF dtsPath dts_content,
           [Effect.mkdirE (parentOf dtsPath), Effect.writeE dtsPath dts_content,
            Effect.logE "OK" "Updated RA74 DTS description."])
        else (env.fs, [Effect.logE "OK" "RA74 DTS already up to date."])
    if dry then
      { fs := fsA
        effects := intro :: eA ++
          [Effect.logE "OK" "Dry-run mode: would ensure ImmortalWrt generic.mk includes RA74 device.",
           Effect.logE "OK" "Custom configuration overlays applied."]
        records := [("Custom configs", "OK")], cleanupAdds := [], ok := true }
    else
      match fsA.read makefilePath with
      | none =>
        { fs := fsA, effects := intro :: eA, records := [], cleanupAdds := [], ok := false }
      | some content =>
        let (fsB, eB) :=
          if !containsSub deviceMarker content then
            (fsA.writeF makefilePath (content ++ "\n" ++ stanza),
             [Effect.appendE makefilePath ("\n" ++ stanza),
              Effect.logE "OK" "Appended RA74 device stanza to generic.mk."])
          else (fsA, [Effect.logE "OK" "RA74 device stanza already present in generic.mk."])
        { fs := fsB
          effects := intro :: eA ++ eB ++
            [Effect.logE "OK" "Custom configuration overlays applied."]
          records := [("Custom configs", "OK")], cleanupAdds := [], ok := true }

/-! ### Overlay step -/

def uciDefaultsRelPath : String := "etc/uci-defaults/99-ra74-dumb-ap"

/-- `shutil.copy2`/`copytree` of each child of `src` into `dst`. -/
def copyChildren (fs : FS) (src dst : String) : FS :=
  let childDirs := fs.dirs.filterMap (fun d =>
    if isUnder src d && d ≠ src then some (rebasePath src dst d) else none)
  let childFiles := fs.files.filterMap (fun pr =>
    if isUnder src pr.1 then some (rebasePath src dst pr.1, pr.2) else none)
  writeMany { fs with dirs := addDirs fs.dirs childDirs } childFiles

/-- `BuildManager.prepare_overlay_directory`.  `tempfile.mkdtemp` runs before
any dry-run check; in dry-run the overlay files are only logged; otherwise the
staging tree is built and copied over the repository's `files/` directory. -/
def prepare_overlay_directory (env : Env) (dry : Bool) : StepResult :=
  let intro := Effect.logE "INFO" "Preparing ImmortalWrt files/ overlay with defaults."
  if !env.fs.dirExists repoDir then
    { fs := env.fs, effects := [intro], records := [], cleanupAdds := [], ok := false }
  else
    let tmp := "/tmp/" ++ env.tempName
    let fs0 := env.fs.mkdirp tmp
    let e0 := [intro, Effect.mkdtempE tmp]
    let target := tmp ++ "/" ++ uciDefaultsRelPath
    let done := Effect.logE "OK" ("Overlay prepared at " ++ overlayDir ++ ".")
    if dry then
      { fs := fs0
        effects := e0 ++
          [Effect.logE "OK" ("Dry-run mode: would create overlay file " ++ target ++ "."), done]
        records := [("Overlay", "OK")], cleanupAdds := [tmp], ok := true }
    else
      let fs1 := (fs0.mkdirp (parentOf target)).writeF target (uciDefaultsContent ++ "\n")
      let e1 := [Effect.mkdirE (parentOf target),
        Effect.writeE target (uciDefaultsContent ++ "\n"), Effect.chmodE target]
      let fwRoot := tmp ++ "/lib/firmware"
      let fs2 := fs1.mkdirp fwRoot
      let (fs3, e3) :=
        if fs2.dirExists vendorAssetsLocal then
          (copyChildren fs2 vendorAssetsLocal fwRoot,
           [Effect.copyE vendorAssetsLocal fwRoot])
        else
          (fs2.writeF (fwRoot ++ "/README.txt")
             "Populate this directory with vendor firmware blobs before building.\n",
           [Effect.logE "WARN"
              ("Vendor assets directory " ++ vendorAssetsLocal ++ " missing; using placeholders."),
            Effect.writeE (fwRoot ++ "/README.txt")
              "Populate this directory with vendor firmware blobs before building.\n"])
      let (fs4, e4) :=
        if fs3.dirExists overlayDir then (removeTreeFS fs3 overlayDir, [Effect.removeE overlayDir])
        else (fs3, [])
      let fs5 := copyTreeFS fs4 tmp overlayDir
      { fs := fs5
        effects := e0 ++ e1 ++ [Effect.mkdirE fwRoot] ++ e3 ++ e4 ++
          [Effect.copyE tmp overlayDir, done]
        records := [("Overlay", "OK")], cleanupAdds := [tmp], ok := true }

/-! ### Configure, build and verify steps -/

/-- `BuildManager.run_menuconfig`: interactive run, explicit exit-code check. -/
def run_menuconfig (env : Env) (dry : Bool) : StepResult :=
  let intro := Effect.logE "INFO" "Launching make menuconfig (interactive)."
  if !env.fs.dirExists repoDir then
    { fs := env.fs, effects := [intro], records := [], cleanupAdds := [], ok := false }
  else
    let (e1, r1) := run_command env dry ["make", "menuconfig"] true true
    match r1 with
    | none =>
      { fs := env.fs, effects := intro :: e1, records := [], cleanupAdds := [], ok := false }
    | some rc =>
      if rc != 0 then
        { fs := env.fs
          effects := intro :: e1 ++ [Effect.logE "ERR" "make menuconfig failed."]
          records := [("menuconfig", "FAILED")], cleanupAdds := [], ok := false }
      else
        { fs := env.fs
          effects := intro :: e1 ++ [Effect.logE "OK" "Configuration step completed."]
          records := [("menuconfig", "OK")], cleanupAdds := [], ok := true }

/-- `BuildManager.build_firmware`: `make -j<cpus>` with `check=True`, so a
failing build raises inside `_run_command` and the `FAILED` branch below is
only reachable through the dry-run's synthetic zero exit code. -/
def build_firmware (env : Env) (dry : Bool) : StepResult :=
  let intro := Effect.logE "INFO" "Starting parallel build."
  if !env.fs.dirExists repoDir then
    { fs := env.fs, effects := [intro], records := [], cleanupAdds := [], ok := false }
  else
    let jobs := if env.cpuCount = 0 then 1 else env.cpuCount
    let (e1, r1) := run_command env dry ["make", "-j" ++ toString jobs] true false
    match r1 with
    | none =>
      { fs := env.fs, effects := intro :: e1, records := [], cleanupAdds := [], ok := false }
    | some rc =>
      if rc != 0 then
        { fs := env.fs
          effects := intro :: e1 ++ [Effect.logE "ERR" "Build failed."]
          records := [("Build", "FAILED")], cleanupAdds := [], ok := false }
      else
        { fs := env.fs
          effects := intro :: e1 ++ [Effect.logE "OK" "Build completed successfully."]
          records := [("Build", "OK")], cleanupAdds := [], ok := true }

/-- Python `max(candidates, key=mtime)`: first maximal element. -/
def maxByMtime (a : Artifact) (rest : List Artifact) : Artifact :=
  rest.foldl (fun b x => if x.mtime > b.mtime then x else b) a

/-- `BuildManager.verify_artifacts`. -/
def verify_artifacts (env : Env) (dry : Bool) : StepResult :=
  let intro := Effect.logE "INFO" "Verifying build artefacts and checksum."
  if !env.fs.dirExists repoDir then
    { fs := env.fs, effects := [intro], records := [], cleanupAdds := [], ok := false }
  else
    match env.globMatches with
    | [] =>
      if dry then
        { fs := env.fs
          effects := [intro,
            Effect.logE "WARN" "Dry-run mode: no artefacts present; using placeholder checksum."]
          records := [("Artefact verification", "OK (simulated)")], cleanupAdds := [], ok := true }
      else
        { fs := env.fs
          effects := [intro,
            Effect.logE "ERR" ("No artefacts found using glob \x27" ++ artifactGlob ++ "\x27.")]
          records := [("Artefact verification", "FAILED")], cleanupAdds := [], ok := false }
    | a :: rest =>
      let latest := maxByMtime a rest
      let checksum := if dry then zeros64 else env.sha256 latest.data
      { fs := env.fs
        effects := [intro, Effect.logE "OK" ("Latest artefact: " ++ latest.path),
          Effect.logE "OK" ("SHA256: " ++ checksum)]
        records := [("Artefact verification", "OK")], cleanupAdds := [], ok := true }

/-- Checksum values actually reported (logged as `SHA256: ...`) by a step. -/
def reportedChecksums (effects : List Effect) : List String :=
  effects.filterMap (fun e =>
    match e with
    | .logE _ msg => if "SHA256: ".data.isPrefixOf msg.data
        then some (String.mk (msg.data.drop 8)) else none
    | _ => none)

/-! ## Workflow engine -/

inductive Step where
  | preflight | backup | vendor | sync | configs | overlay | menuconfig | build | verify
deriving DecidableEq

def runStep : Step → Env → Bool → StepResult
  | .preflight => preflight_checks
  | .backup => backup_important_files
  | .vendor => fetch_vendor_blobs
  | .sync => clone_or_update_repo
  | .configs => apply_custom_configs
  | .overlay => prepare_overlay_directory
  | .menuconfig => run_menuconfig
  | .build => build_firmware
  | .verify => verify_artifacts

/-- The Python method name of each step, used in the engine's failure log. -/
def pyName : Step → String
  | .preflight => "preflight_checks"
  | .backup => "backup_important_files"
  | .vendor => "fetch_vendor_blobs"
  | .sync => "clone_or_update_repo"
  | .configs => "apply_custom_configs"
  | .overlay => "prepare_overlay_directory"
  | .menuconfig => "run_menuconfig"
  | .build => "build_firmware"
  | .verify => "verify_artifacts"

/-- The fixed execution order of `run_full_workflow`. -/
def workflowSteps : List Step :=
  [.preflight, .backup, .vendor, .sync, .configs, .overlay, .menuconfig, .build, .verify]

structure WorkflowResult where
  fs : FS
  summary : List (String × String)
  effects : List Effect
  cleanup : List String

/-- The engine loop: run each step on the filesystem left by its predecessor;
on the first raised failure, log the step name and stop (later steps get no
summary records at all). -/
def workflowGo (env : Env) (dry : Bool) : List Step → WorkflowResult
  | [] => { fs := env.fs, summary := [], effects := [], cleanup := [] }
  | s :: rest =>
    let r := runStep s env dry
    if r.ok then
      let tail := workflowGo { env with fs := r.fs } dry rest
      { fs := tail.fs
        summary := r.records ++ tail.summary
        effects := r.effects ++ tail.effects
        cleanup := r.cleanupAdds ++ tail.cleanup }
    else
      { fs := r.fs
        summary := r.records
        effects := r.effects ++
          [Effect.logE "ERR" ("Step \x27" ++ pyName s ++ "\x27 failed.")]
        cleanup := r.cleanupAdds }

/-- `BuildManager.run_full_workflow`: clear the summary, then run the nine
steps in order, stopping at the first failure. -/
def run_full_workflow (env : Env) (dry : Bool) : WorkflowResult :=
  workflowGo env dry workflowSteps

/-! ## Cleanup / signal handling -/

/-- Manager state relevant to `_cleanup`: the registered temporary paths, the
log sink, and the filesystem. -/
structure CleanState where
  cleanupPaths : List String
  loggerClosed : Bool
  fs : FS
deriving DecidableEq

/-- Removal of one popped path: directories recursively (`shutil.rmtree` with
`ignore_errors`), plain files via `unlink` with a missing file swallowed, and
non-existent paths skipped. -/
def removePath (fs : FS) (p : String) : FS × List Effect :=
  if fs.dirExists p then (removeTreeFS fs p, [Effect.removeE p])
  else if fs.fileExists p then (removeFileFS fs p, [Effect.removeE p])
  else (fs, [])

/-- The `while self.cleanup_paths: path = self.cleanup_paths.pop()` loop;
`list.pop()` takes the last element, so the registered list is processed in
reverse. -/
def cleanupDrainRev (fs : FS) : List String → FS × List Effect
  | [] => (fs, [])
  | p :: rest =>
    let (fs1, e1) := removePath fs p
    let (fs2, e2) := cleanupDrainRev fs1 rest
    (fs2, e1 ++ e2)

structure CleanupResult where
  state : CleanState
  effects : List Effect
  raised : Option String
deriving DecidableEq

/-- `BuildManager._cleanup`: drain the path list (last registered first), then
log and close the sink.  Once the sink is closed, the `logger.info` call
writes to a closed handle and raises `ValueError`. -/
def cleanup (st : CleanState) : CleanupResult :=
  let (fs1, effs) := cleanupDrainRev st.fs st.cleanupPaths.reverse
  if st.loggerClosed then
    { state := { cleanupPaths := [], loggerClosed := true, fs := fs1 }
      effects := effs
      raised := some "ValueError: I/O operation on closed file." }
  else
    { state := { cleanupPaths := [], loggerClosed := true, fs := fs1 }
      effects := effs ++ [Effect.logE "INFO" "Temporary artefacts cleaned up."]
      raised := none }

/-! ## CLI entry point -/

inductive Action where
  | full
  | step (s : Step)
deriving DecidableEq

/-- The `commands` keyword table in `main`. -/
def commandFor : String → Option Action
  | "full" => some .full
  | "preflight" => some (.step .preflight)
  | "backup" => some (.step .backup)
  | "vendor" => some (.step .vendor)
  | "sync" => some (.step .sync)
  | "configs" => some (.step .configs)
  | "overlay" => some (.step .overlay)
  | "menuconfig" => some (.step .menuconfig)
  | "build" => some (.step .build)
  | "verify" => some (.step .verify)
  | _ => none

inductive MainOutcome where
  /-- `main` returned this exit code to `sys.exit`. -/
  | exitCode (code : Nat)
  /-- The step raised and nothing in `main` caught it: the exception escapes
  `main`, the summary is not printed, and the interpreter terminates the
  process abnormally (exit status 1 via the default traceback handler). -/
  | uncaught (s : Step)
  /-- No CLI keyword: the interactive menu loop is entered instead. -/
  | menu
deriving DecidableEq

/-- `main(argv)` for `len(argv) > 1`: look up `argv[1].lower()`; unknown
keyword logs an error and returns 1; `full` runs the engine loop (which
swallows step failures) and returns 0; a single step runs bare, so its raised
failure propagates. -/
def mainRun (argv : List String) (env : Env) (dry : Bool) : MainOutcome :=
  match argv with
  | _prog :: kw :: _ =>
    match commandFor (lowerStr kw) with
    | none => MainOutcome.exitCode 1
    | some .full => MainOutcome.exitCode 0
    | some (.step s) =>
      if (runStep s env dry).ok then MainOutcome.exitCode 0
      else MainOutcome.uncaught s
  | _ => MainOutcome.menu

/-! ## Basic lemmas about the filesystem model -/

theorem getAssoc_setAssoc_self {α : Type} (k : String) (v : α) :
    ∀ l : List (String × α), getAssoc k (setAssoc k v l) = some v := by
  intro l
  induction l with
  | nil => simp [getAssoc, setAssoc]
  | cons hd tl ih =>
    by_cases h : hd.1 = k
    · simp [getAssoc, setAssoc, h]
    · simp [getAssoc, setAssoc, h, ih]

theorem getAssoc_setAssoc_ne {α : Type} (k q : String) (v : α) (hne : q ≠ k) :
    ∀ l : List (String × α), getAssoc q (setAssoc k v l) = getAssoc q l := by
  intro l
  induction l with
  | nil => simp [getAssoc, setAssoc, Ne.symm hne]
  | cons hd tl ih =>
    by_cases h : hd.1 = k
    · simp [getAssoc, setAssoc, h, Ne.symm hne, hne]
    · simp [getAssoc, setAssoc, h, ih]

theorem FS.read_writeF_self (fs : FS) (p c : String) : (fs.writeF p c).read p = some c := by
  simp [FS.writeF, FS.read, getAssoc_setAssoc_self]

theorem FS.read_writeF_ne (fs : FS) (p q c : String) (h : q ≠ p) :
    (fs.writeF p c).read q = fs.read q := by
  simp [FS.writeF, FS.read, getAssoc_setAssoc_ne p q c h]

theorem FS.read_mkdirp (fs : FS) (p q : String) : (fs.mkdirp p).read q = fs.read q := rfl

theorem FS.mtimeOf_writeF_self (fs : FS) (p c : String) :
    (fs.writeF p c).mtimeOf p = some (fs.clock + 1) := by
  simp [FS.writeF, FS.mtimeOf, getAssoc_setAssoc_self]

theorem contains_append_right (ds : List String) (x : String) (h : ds.contains x = true) :
    ∀ d, (ds ++ [d]).contains x = true := by
  intro d
  induction ds with
  | nil => simp [List.contains_nil] at h
  | cons a tl ih =>
    simp only [List.cons_append, List.contains_cons, Bool.or_eq_true] at h ⊢
    rcases h with h | h
    · exact Or.inl h
    · exact Or.inr (ih h)

theorem contains_addDirs (x : String) :
    ∀ (l ds : List String), ds.contains x = true → (addDirs ds l).contains x = true := by
  intro l
  induction l with
  | nil => intro ds h; simpa [addDirs] using h
  | cons d rest ih =>
    intro ds h
    simp only [addDirs]
    by_cases hd : ds.contains d
    · simp only [hd, if_pos rfl]
      exact ih ds h
    · simp only [hd]
      simp only [Bool.false_eq_true, if_false]
      exact ih (ds ++ [d]) (contains_append_right ds x h d)

theorem FS.dirExists_mkdirp_mono (fs : FS) (p d : String) (h : fs.dirExists d = true) :
    (fs.mkdirp p).dirExists d = true := by
  simp only [FS.dirExists, FS.mkdirp] at h ⊢
  exact contains_addDirs d _ fs.dirs h

theorem FS.dirExists_writeF (fs : FS) (p c d : String) :
    (fs.writeF p c).dirExists d = fs.dirExists d := rfl

/-! ## Shared concrete inputs for witnesses and counterexamples -/

/-- A filesystem in which the repository directory already exists. -/
def fsRepo : FS := { files := [], mtimes := [], dirs := [buildRoot, repoDir] }

/-- Baseline environment: repository present, every tool available, all
processes succeed, no artefacts matched. -/
def envBase : Env :=
  { fs := fsRepo
    toolOnPath := fun _ => true
    procExit := fun _ => 0
    procOut := fun _ => "data"
    globMatches := []
    sha256 := fun _ => zeros64
    cpuCount := 4
    tempName := "overlay_scratch" }

/-! ## Claim C4 — streaming command runner with `allow_failure` -/

def c4dest : String := backupLocalDir ++ "/dmesg.txt"

/-- A filesystem whose destination file already holds earlier data. -/
def c4fs : FS :=
  { files := [(c4dest, "previously-written data")]
    mtimes := [(c4dest, 1)]
    dirs := [backupLocalDir] }

/-- Environment in which the streamed command fails (exit 1) having produced
no output. -/
def c4env : Env :=
  { fs := c4fs
    toolOnPath := fun _ => true
    procExit := fun _ => 1
    procOut := fun _ => ""
    globMatches := []
    sha256 := fun _ => zeros64
    cpuCount := 4
    tempName := "overlay_scratch" }

/-- Claim C4 (refuted as stated; the code contradicts its own "kept existing
data" log line): when the streaming command variant runs with `allow_failure`
and the subprocess fails, the destination is NOT preserved — `open("wb")`
truncates it first, so the prior content "previously-written data" is replaced
by the failed process's (empty) output.  The step does continue with a WARN
log, as claimed. -/
theorem c4_streaming_truncates_on_failure :
    (run_command_to_file c4env false c4fs ["ssh", backupRemote, "dmesg"] c4dest true).ok = true ∧
    c4fs.read c4dest = some "previously-written data" ∧
    (run_command_to_file c4env false c4fs ["ssh", backupRemote, "dmesg"] c4dest true).fs.read c4dest
      = some "" ∧
    (run_command_to_file c4env false c4fs ["ssh", backupRemote, "dmesg"] c4dest true).fs.read c4dest
      ≠ some "previously-written data" ∧
    (run_command_to_file c4env false c4fs ["ssh", backupRemote, "dmesg"] c4dest true).effects.any
      (fun e => match e with | .logE lvl _ => lvl == "WARN" | _ => false) = true := by
  refine ⟨rfl, rfl, by decide, by decide, by decide⟩

/-! ## Claim C5 — the file writer `_write_file` -/

def c5path : String := repoDir ++ "/files/etc/example.conf"

def c5fs : FS :=
  { files := [(c5path, "hello")]
    mtimes := [(c5path, 5)]
    dirs := [buildRoot, repoDir] }

/-- Claim C5 counterexample: `_write_file` does not compare existing content.
Writing the very same content again still rewrites the file, so its
modification time changes — refuting "writing the same content twice leaves
the file's modification time unchanged after the second write". -/
theorem c5_same_content_rewrite_changes_mtime :
    c5fs.read c5path = some "hello" ∧
    c5fs.mtimeOf c5path = some 5 ∧
    (write_file false c5fs c5path "hello").1.mtimeOf c5path = some 6 ∧
    (write_file false c5fs c5path "hello").1.mtimeOf c5path ≠ c5fs.mtimeOf c5path ∧
    (write_file false c5fs c5path "hello").2.any Effect.isFsMutation = true := by
  refine ⟨rfl, rfl, by decide, by decide, by decide⟩

/-- Claim C5 (amended): `_write_file` (dry-run aside) creates parent
directories and writes unconditionally — it never reads or compares the
existing content and performs no chmod.  Consequently the disk content after a
write always equals the new content (that part of the claim holds), and a
second write of any content — identical or different — again leaves the disk
content equal to it while advancing the modification stamp. -/
theorem c5_writer_unconditional (fs : FS) (p c c₂ : String) :
    (write_file false fs p c).1.read p = some c ∧
    (write_file false fs p c).1.mtimeOf p = some (fs.clock + 1) ∧
    (write_file false (write_file false fs p c).1 p c₂).1.read p = some c₂ ∧
    (write_file false fs p c).2.any Effect.isProcCall = false := by
  refine ⟨?_, ?_, ?_, ?_⟩
  · simp [write_file, FS.read_writeF_self]
  · simp [write_file, FS.writeF, FS.mtimeOf, getAssoc_setAssoc_self, FS.mkdirp, FS.clock]
  · simp [write_file, FS.read_writeF_self]
  · simp [write_file, Effect.isProcCall, List.any]

/-! ## Claim C8 — cleanup / signal handling -/

def c8state : CleanState :=
  { cleanupPaths := ["/tmp/overlay_one", "/tmp/overlay_two"]
    loggerClosed := false
    fs := { files := [], mtimes := [], dirs := ["/tmp/overlay_one", "/tmp/overlay_two"] } }

/-- Claim C8: the first `_cleanup` run removes the registered paths in
last-registered-first order and closes the log sink — but the drain logic is
NOT idempotent: a second invocation (exactly what happens when a signal
handler calls `_cleanup` and then `sys.exit(1)` triggers the `atexit` hook)
writes the "Temporary artefacts cleaned up." line to the already-closed log
handle and raises `ValueError`. -/
theorem c8_cleanup_second_invocation_raises :
    (cleanup c8state).raised = none ∧
    (cleanup c8state).effects =
      [Effect.removeE "/tmp/overlay_two", Effect.removeE "/tmp/overlay_one",
       Effect.logE "INFO" "Temporary artefacts cleaned up."] ∧
    (cleanup c8state).state.cleanupPaths = [] ∧
    (cleanup c8state).state.loggerClosed = true ∧
    (cleanup (cleanup c8state).state).raised =
      some "ValueError: I/O operation on closed file." := by
  refine ⟨rfl, by decide, rfl, rfl, by decide⟩

/-! ## Records characterisation of the first four steps (for claim C2) -/

theorem preflight_ok_records (env : Env) (d : Bool) :
    (preflight_checks env d).ok = true →
    (preflight_checks env d).records = [("Preflight checks", "OK")] := by
  intro h
  unfold preflight_checks at h ⊢
  by_cases hm : (requiredTools.filter (fun t => !env.toolOnPath t)).isEmpty
  · simp [hm]
  · simp [hm] at h

theorem backup_ok_records (env : Env) (d : Bool) :
    (backup_important_files env d).ok = true →
    (backup_important_files env d).records = [("Backup", "OK")] := by
  intro h
  unfold backup_important_files at h ⊢
  rcases hs : streamAll env d (env.fs.mkdirp backupLocalDir) (infoCommands ++ partitionCommands)
    with ⟨fs1, effs, okb⟩
  simp only [hs] at h ⊢
  cases okb
  · simp at h
  · cases d <;> simp

theorem vendor_ok_records (env : Env) (d : Bool) :
    (fetch_vendor_blobs env d).ok = true →
    (fetch_vendor_blobs env d).records = [("Vendor assets", "OK")] := by
  intro h
  unfold fetch_vendor_blobs at h ⊢
  rcases hs : fetchLoop env d vendorTargets with ⟨effs, okv⟩
  simp only [hs] at h ⊢
  cases okv
  · simp at h
  · simp

theorem repoSyncTail_fail_records (env : Env) (d : Bool) (fs : FS) (effs : List Effect) :
    (repoSyncTail env d fs effs).ok = false →
    (repoSyncTail env d fs effs).records = [] := by
  intro h
  unfold repoSyncTail at h ⊢
  cases d
  · simp only [Bool.false_and, Bool.false_eq_true, if_false] at h ⊢
    rcases h2 : (run_command env false ["./scripts/feeds", "update", "-a"] true false).2
      with _ | v2
    · simp [h2]
    · simp only [h2] at h ⊢
      rcases h3 : (run_command env false ["./scripts/feeds", "install", "-a"] true false).2
        with _ | v3
      · simp [h3]
      · simp [h3] at h
  · by_cases hb : fs.dirExists repoDir = true
    · simp [hb] at h
    · simp [hb] at h

theorem sync_fail_records (env : Env) (d : Bool) :
    (clone_or_update_repo env d).ok = false →
    (clone_or_update_repo env d).records = [] := by
  intro h
  unfold clone_or_update_repo at h ⊢
  by_cases hr : env.fs.dirExists repoDir = true
  · simp only [hr, if_true] at h ⊢
    rcases h1 : (run_command env d ["git", "fetch", "--all"] true false).2 with _ | v1
    · simp [h1]
    · simp only [h1] at h ⊢
      rcases h2 : (run_command env d ["git", "reset", "--hard", "origin/" ++ repoBranch]
          true false).2 with _ | v2
      · simp [h2]
      · simp only [h2] at h ⊢
        exact repoSyncTail_fail_records env d env.fs _ h
  · simp only [hr, Bool.false_eq_true, if_false] at h ⊢
    rcases h1 : (run_command env d ["git", "clone", "--branch", repoBranch, repoUrl, repoDir]
        true false).2 with _ | v1
    · simp [h1]
    · simp only [h1] at h ⊢
      exact repoSyncTail_fail_records env d _ _ h

/-! ## Claim C2 — full workflow stops at the first failing step -/

def envWithFS (env : Env) (fs : FS) : Env := { env with fs := fs }

/-- Environment as seen by step 2 of the workflow. -/
def env1 (env : Env) (d : Bool) : Env := envWithFS env (runStep .preflight env d).fs

/-- Environment as seen by step 3 of the workflow. -/
def env2 (env : Env) (d : Bool) : Env :=
  envWithFS (env1 env d) (runStep .backup (env1 env d) d).fs

/-- Environment as seen by step 4 of the workflow. -/
def env3 (env : Env) (d : Bool) : Env :=
  envWithFS (env2 env d) (runStep .vendor (env2 env d) d).fs

/-- Claim C2: `run_full_workflow` starts from an empty summary and executes
the nine steps in the fixed order; when steps 1–3 (preflight, backup,
vendor-fetch) return normally and step 4 (repo-sync) raises, the loop logs the
failure and stops, leaving a summary of exactly the three OK records of steps
1–3 and no records for steps 4–9. -/
theorem c2_stop_on_fourth_failure (env : Env) (d : Bool)
    (h1 : (runStep .preflight env d).ok = true)
    (h2 : (runStep .backup (env1 env d) d).ok = true)
    (h3 : (runStep .vendor (env2 env d) d).ok = true)
    (h4 : (runStep .sync (env3 env d) d).ok = false) :
    (run_full_workflow env d).summary =
      [("Preflight checks", "OK"), ("Backup", "OK"), ("Vendor assets", "OK")] := by
  simp only [env1, env2, env3, envWithFS, runStep] at h1 h2 h3 h4
  simp only [run_full_workflow, workflowSteps, workflowGo, runStep, h1, h2, h3, h4,
    if_true, Bool.false_eq_true, if_false]
  rw [preflight_ok_records env d h1, backup_ok_records _ d h2, vendor_ok_records _ d h3,
    sync_fail_records _ d h4]
  simp

/-- Environment whose `git fetch` fails while everything else succeeds. -/
def envC2 : Env :=
  { envBase with procExit := fun c => if c = ["git", "fetch", "--all"] then 1 else 0 }

/-- Witness for claim C2 at a concrete environment: preflight, backup and
vendor-fetch succeed, `git fetch` fails, and the summary is exactly the three
OK records. -/
theorem c2_stop_on_fourth_failure_witness :
    (run_full_workflow envC2 false).summary =
      [("Preflight checks", "OK"), ("Backup", "OK"), ("Vendor assets", "OK")] :=
  c2_stop_on_fourth_failure envC2 false (by decide) (by decide) (by decide) (by decide)

/-! ## Records characterisation of the remaining steps -/

theorem repoSyncTail_ok_records (env : Env) (d : Bool) (fs : FS) (effs : List Effect) :
    (repoSyncTail env d fs effs).ok = true →
    (repoSyncTail env d fs effs).records = [("Repository sync", "OK")] := by
  intro h
  unfold repoSyncTail at h ⊢
  cases d
  · simp only [Bool.false_and, Bool.false_eq_true, if_false] at h ⊢
    rcases h2 : (run_command env false ["./scripts/feeds", "update", "-a"] true false).2
      with _ | v2
    · simp [h2] at h
    · simp only [h2] at h ⊢
      rcases h3 : (run_command env false ["./scripts/feeds", "install", "-a"] true false).2
        with _ | v3
      · simp [h3] at h
      · simp [h3]
  · by_cases hb : fs.dirExists repoDir = true
    · simp [hb]
    · simp [hb]

theorem sync_ok_records (env : Env) (d : Bool) :
    (clone_or_update_repo env d).ok = true →
    (clone_or_update_repo env d).records = [("Repository sync", "OK")] := by
  intro h
  unfold clone_or_update_repo at h ⊢
  by_cases hr : env.fs.dirExists repoDir = true
  · simp only [hr, if_true] at h ⊢
    rcases h1 : (run_command env d ["git", "fetch", "--all"] true false).2 with _ | v1
    · simp [h1] at h
    · simp only [h1] at h ⊢
      rcases h2 : (run_command env d ["git", "reset", "--hard", "origin/" ++ repoBranch]
          true false).2 with _ | v2
      · simp [h2] at h
      · simp only [h2] at h ⊢
        exact repoSyncTail_ok_records env d env.fs _ h
  · simp only [hr, Bool.false_eq_true, if_false] at h ⊢
    rcases h1 : (run_command env d ["git", "clone", "--branch", repoBranch, repoUrl, repoDir]
        true false).2 with _ | v1
    · simp [h1] at h
    · simp only [h1] at h ⊢
      exact repoSyncTail_ok_records env d _ _ h

theorem configs_records_cases (env : Env) (d : Bool) :
    ((apply_custom_configs env d).ok = true →
      (apply_custom_configs env d).records = [("Custom configs", "OK")]) ∧
    ((apply_custom_configs env d).ok = false →
      (apply_custom_configs env d).records = []) := by
  unfold apply_custom_configs
  by_cases hr : env.fs.dirExists repoDir = true
  · simp only [hr, Bool.not_true, Bool.false_eq_true, if_false]
    cases d
    · by_cases hdts : (env.fs.read dtsPath).getD "" = dts_content
      · simp only [hdts, ne_eq, not_true_eq_false, Bool.false_eq_true, if_false]
        rcases hm : (env.fs.read makefilePath) with _ | content
        · simp [hm]
        · by_cases hc : (!containsSub deviceMarker content) = true
          · simp [hm, hc]
          · simp [hm, hc]
      · simp only [ne_eq, hdts, not_false_eq_true, if_true, Bool.false_eq_true, if_false]
        rcases hm : (((env.fs.mkdirp (parentOf dtsPath)).writeF dtsPath dts_content).read
            makefilePath) with _ | content
        · simp [hm]
        · by_cases hc : (!containsSub deviceMarker content) = true
          · simp [hm, hc]
          · simp [hm, hc]
    · simp
  · simp [hr]

theorem overlay_records_cases (env : Env) (d : Bool) :
    ((prepare_overlay_directory env d).ok = true →
      (prepare_overlay_directory env d).records = [("Overlay", "OK")]) ∧
    ((prepare_overlay_directory env d).ok = false →
      (prepare_overlay_directory env d).records = []) := by
  unfold prepare_overlay_directory
  by_cases hr : env.fs.dirExists repoDir = true
  · simp only [hr, Bool.not_true, Bool.false_eq_true, if_false]
    cases d <;> simp
  · simp [hr]

theorem menuconfig_records_cases (env : Env) (d : Bool) :
    ((run_menuconfig env d).ok = true →
      (run_menuconfig env d).records = [("menuconfig", "OK")]) ∧
    (run_menuconfig env d).records.length ≤ 1 := by
  unfold run_menuconfig
  by_cases hr : env.fs.dirExists repoDir = true
  · simp only [hr, Bool.not_true, Bool.false_eq_true, if_false]
    rcases h1 : (run_command env d ["make", "menuconfig"] true true).2 with _ | rc
    · simp [h1]
    · by_cases hv : (rc != 0) = true
      · simp [h1, hv]
      · simp [h1, hv]
  · simp [hr]

theorem build_records_cases (env : Env) (d : Bool) :
    ((build_firmware env d).ok = true →
      (build_firmware env d).records = [("Build", "OK")]) ∧
    (build_firmware env d).records.length ≤ 1 := by
  unfold build_firmware
  by_cases hr : env.fs.dirExists repoDir = true
  · simp only [hr, Bool.not_true, Bool.false_eq_true, if_false]
    rcases h1 : (run_command env d
        ["make", "-j" ++ toString (if env.cpuCount = 0 then 1 else env.cpuCount)] true false).2
      with _ | rc
    · simp [h1]
    · by_cases hv : (rc != 0) = true
      · simp [h1, hv]
      · simp [h1, hv]
  · simp [hr]

theorem verify_records_cases (env : Env) (d : Bool) :
    ((verify_artifacts env d).ok = true → (verify_artifacts env d).records.length = 1) ∧
    (verify_artifacts env d).records.length ≤ 1 := by
  unfold verify_artifacts
  by_cases hr : env.fs.dirExists repoDir = true
  · simp only [hr, Bool.not_true, Bool.false_eq_true, if_false]
    rcases env.globMatches with _ | ⟨a, rest⟩
    · cases d <;> simp
    · simp
  · simp [hr]

theorem preflight_fail_records (env : Env) (d : Bool)
    (h : (preflight_checks env d).ok = false) :
    (preflight_checks env d).records = [("Preflight checks", "FAILED")] := by
  unfold preflight_checks at h ⊢
  by_cases hm : (requiredTools.filter (fun t => !env.toolOnPath t)).isEmpty
  · simp [hm] at h
  · simp [hm]

theorem backup_fail_records (env : Env) (d : Bool)
    (h : (backup_important_files env d).ok = false) :
    (backup_important_files env d).records = [] := by
  unfold backup_important_files at h ⊢
  rcases hs : streamAll env d (env.fs.mkdirp backupLocalDir) (infoCommands ++ partitionCommands)
    with ⟨fs1, effs, okb⟩
  simp only [hs] at h ⊢
  cases okb
  · simp
  · cases d <;> simp at h

theorem vendor_fail_records (env : Env) (d : Bool)
    (h : (fetch_vendor_blobs env d).ok = false) :
    (fetch_vendor_blobs env d).records = [("Vendor assets", "FAILED")] := by
  unfold fetch_vendor_blobs at h ⊢
  rcases hs : fetchLoop env d vendorTargets with ⟨effs, okv⟩
  simp only [hs] at h ⊢
  cases okv
  · simp
  · simp at h

/-- With `check=True` and `interactive=False`, `_run_command` can only return
normally with a zero exit code: a non-zero code raises `CalledProcessError`
instead of being returned. -/
theorem run_command_check_exit (env : Env) (d : Bool) (cmd : List String) (rc : Nat)
    (h : (run_command env d cmd true false).2 = some rc) : rc = 0 := by
  unfold run_command at h
  cases d
  · by_cases hp : env.procExit cmd = 0
    · simp [hp] at h
      omega
    · simp [hp] at h
  · simp at h
    omega

/-- The Build step never records `FAILED`: a repo-missing failure records
nothing, and a failing `make` raises inside `_run_command` (`check=True`)
before `build_firmware` can reach its `FAILED` branch, which is dead code. -/
theorem build_fail_records (env : Env) (d : Bool)
    (h : (build_firmware env d).ok = false) :
    (build_firmware env d).records = [] := by
  unfold build_firmware at h ⊢
  by_cases hr : env.fs.dirExists repoDir = true
  · simp only [hr, Bool.not_true, Bool.false_eq_true, if_false] at h ⊢
    rcases h1 : (run_command env d
        ["make", "-j" ++ toString (if env.cpuCount = 0 then 1 else env.cpuCount)] true false).2
      with _ | rc
    · simp [h1]
    · have h0 : rc = 0 := run_command_check_exit env d _ rc h1
      subst h0
      simp [h1] at h
  · simp [hr]

theorem menuconfig_fail_records (env : Env) (d : Bool)
    (h : (run_menuconfig env d).ok = false) :
    (run_menuconfig env d).records =
      if env.fs.dirExists repoDir = true then [("menuconfig", "FAILED")] else [] := by
  unfold run_menuconfig at h ⊢
  by_cases hr : env.fs.dirExists repoDir = true
  · simp only [hr, Bool.not_true, Bool.false_eq_true, if_false, if_true] at h ⊢
    cases d
    · simp only [run_command, Bool.false_eq_true, if_false, if_true] at h ⊢
      by_cases hv : (env.procExit ["make", "menuconfig"] != 0) = true
      · simp [hv]
      · simp [hv] at h
    · simp [run_command] at h
  · simp [hr]

theorem verify_fail_records (env : Env) (d : Bool)
    (h : (verify_artifacts env d).ok = false) :
    (verify_artifacts env d).records =
      if env.fs.dirExists repoDir = true then [("Artefact verification", "FAILED")] else [] := by
  unfold verify_artifacts at h ⊢
  by_cases hr : env.fs.dirExists repoDir = true
  · simp only [hr, Bool.not_true, Bool.false_eq_true, if_false, if_true] at h ⊢
    rcases hg : env.globMatches with _ | ⟨a, rest⟩
    · simp only [hg] at h ⊢
      cases d
      · simp
      · simp at h
    · simp only [hg] at h ⊢
      simp at h
  · simp [hr]

/-! ## Claim C3 — summary records per step invocation -/

/-- Environment whose repository directory is absent. -/
def envNoRepo : Env := { envBase with fs := { files := [], mtimes := [], dirs := [buildRoot] } }

/-- Claim C3 counterexample: `apply_custom_configs` invoked with the
repository missing raises `FileNotFoundError` and appends NO summary record —
refuting "appends exactly one Summary Record ... in both of its outcomes". -/
theorem c3_cex_configs_failure_appends_nothing :
    (runStep .configs envNoRepo false).ok = false ∧
    (runStep .configs envNoRepo false).records = [] := ⟨rfl, rfl⟩

/-- Claim C3 (amended): every step appends exactly one Summary Record when it
returns normally.  A failing step appends at most one, and exactly these:
preflight and vendor-fetch always append a FAILED record before raising;
menuconfig and verify append a FAILED record exactly when the repository
directory is present (their repo-missing failures record nothing); backup,
repo-sync, config-patch, overlay-prepare and build never record anything on
failure.  In particular Build never records FAILED: a failing make raises
inside the command runner (check=True) before the FAILED branch, which is
dead code. -/
theorem c3_records_per_step (s : Step) (env : Env) (d : Bool) :
    ((runStep s env d).ok = true → (runStep s env d).records.length = 1) ∧
    ((runStep s env d).ok = false →
      (runStep s env d).records =
        if s = .preflight then [("Preflight checks", "FAILED")]
        else if s = .vendor then [("Vendor assets", "FAILED")]
        else if s = .menuconfig ∧ env.fs.dirExists repoDir = true then
          [("menuconfig", "FAILED")]
        else if s = .verify ∧ env.fs.dirExists repoDir = true then
          [("Artefact verification", "FAILED")]
        else []) := by
  cases s
  case preflight =>
    refine ⟨fun h => ?_, fun h => ?_⟩
    · show (preflight_checks env d).records.length = 1
      rw [preflight_ok_records env d h]; simp
    · show (preflight_checks env d).records = _
      rw [preflight_fail_records env d h]
      simp
  case backup =>
    refine ⟨fun h => ?_, fun h => ?_⟩
    · show (backup_important_files env d).records.length = 1
      rw [backup_ok_records env d h]; simp
    · show (backup_important_files env d).records = _
      rw [backup_fail_records env d h]
      simp
  case vendor =>
    refine ⟨fun h => ?_, fun h => ?_⟩
    · show (fetch_vendor_blobs env d).records.length = 1
      rw [vendor_ok_records env d h]; simp
    · show (fetch_vendor_blobs env d).records = _
      rw [vendor_fail_records env d h]
      simp
  case sync =>
    refine ⟨fun h => ?_, fun h => ?_⟩
    · show (clone_or_update_repo env d).records.length = 1
      rw [sync_ok_records env d h]; simp
    · show (clone_or_update_repo env d).records = _
      rw [sync_fail_records env d h]
      simp
  case configs =>
    refine ⟨fun h => ?_, fun h => ?_⟩
    · show (apply_custom_configs env d).records.length = 1
      rw [(configs_records_cases env d).1 h]; simp
    · show (apply_custom_configs env d).records = _
      rw [(configs_records_cases env d).2 h]
      simp
  case overlay =>
    refine ⟨fun h => ?_, fun h => ?_⟩
    · show (prepare_overlay_directory env d).records.length = 1
      rw [(overlay_records_cases env d).1 h]; simp
    · show (prepare_overlay_directory env d).records = _
      rw [(overlay_records_cases env d).2 h]
      simp
  case menuconfig =>
    refine ⟨fun h => ?_, fun h => ?_⟩
    · show (run_menuconfig env d).records.length = 1
      rw [(menuconfig_records_cases env d).1 h]; simp
    · show (run_menuconfig env d).records = _
      rw [menuconfig_fail_records env d h]
      by_cases hr : env.fs.dirExists repoDir = true <;> simp [hr]
  case build =>
    refine ⟨fun h => ?_, fun h => ?_⟩
    · show (build_firmware env d).records.length = 1
      rw [(build_records_cases env d).1 h]; simp
    · show (build_firmware env d).records = _
      rw [build_fail_records env d h]
      simp
  case verify =>
    refine ⟨(verify_records_cases env d).1, fun h => ?_⟩
    show (verify_artifacts env d).records = _
    rw [verify_fail_records env d h]
    by_cases hr : env.fs.dirExists repoDir = true <;> simp [hr]

/-- Witness for claim C3's amended theorem at concrete inputs: preflight
succeeding (one record) and config-patch failing with the repository missing
(no record). -/
theorem c3_records_per_step_witness :
    (runStep .preflight envBase false).records.length = 1 ∧
    (runStep .configs envNoRepo false).records = [] :=
  ⟨(c3_records_per_step .preflight envBase false).1 (by decide),
   by rw [(c3_records_per_step .configs envNoRepo false).2 (by decide)]; decide⟩

/-! ## Claim C1 — dry-run frame property -/

/-- What dry-run actually guarantees per step: no process/network call, every
filesystem mutation is a directory creation (never a file write, chmod,
removal or copy), and exactly one non-`FAILED` summary record. -/
def dryRunBenign (r : StepResult) : Bool :=
  r.effects.all (fun e => !e.isProcCall && (!e.isFsMutation || e.isDirCreation)) &&
  (r.records.length == 1) &&
  r.records.all (fun p => p.2 != "FAILED")

/-- Claim C1 counterexample: the Backup step run in dry-run still creates the
backup directory — a filesystem mutation outside the log file — while
completing normally, refuting "performs no filesystem mutation outside the
log file". -/
theorem c1_cex_dry_backup_creates_directory :
    (runStep .backup envBase true).ok = true ∧
    backupLocalDir ∉ envBase.fs.dirs ∧
    backupLocalDir ∈ (runStep .backup envBase true).fs.dirs ∧
    (runStep .backup envBase true).effects.any Effect.isFsMutation = true := by
  refine ⟨rfl, by decide, by decide, by decide⟩

/-- Claim C1 (amended): every step that completes normally under dry-run makes
no subprocess or network call, mutates the filesystem only by creating
directories (backup target, vendor-assets dir, build root, placeholder repo
dir, overlay temp dir) — never writing file contents — and appends exactly one
Summary Record with a non-failure status (Verify Artifacts with zero matches
records the simulated-OK). -/
theorem c1_dry_run_creates_dirs_only (s : Step) (env : Env)
    (h : (runStep s env true).ok = true) :
    dryRunBenign (runStep s env true) = true := by
  cases s
  case preflight =>
    by_cases hm : (requiredTools.filter (fun t => !env.toolOnPath t)).isEmpty
    · simp [runStep, preflight_checks, hm, dryRunBenign, Effect.isProcCall,
        Effect.isFsMutation, Effect.isDirCreation]
    · simp [runStep, preflight_checks, hm] at h
  case backup => rfl
  case vendor => rfl
  case sync =>
    by_cases hr : env.fs.dirExists repoDir = true
    · simp [runStep, clone_or_update_repo, run_command, repoSyncTail, hr, dryRunBenign,
        Effect.isProcCall, Effect.isFsMutation, Effect.isDirCreation]
    · by_cases hb : (env.fs.mkdirp buildRoot).dirExists repoDir = true
      · simp [runStep, clone_or_update_repo, run_command, repoSyncTail, hr, hb, dryRunBenign,
          Effect.isProcCall, Effect.isFsMutation, Effect.isDirCreation]
      · simp [runStep, clone_or_update_repo, run_command, repoSyncTail, hr, hb, dryRunBenign,
          Effect.isProcCall, Effect.isFsMutation, Effect.isDirCreation]
  case configs =>
    by_cases hr : env.fs.dirExists repoDir = true
    · simp [runStep, apply_custom_configs, hr, dryRunBenign, Effect.isProcCall,
        Effect.isFsMutation, Effect.isDirCreation]
    · simp [runStep, apply_custom_configs, hr] at h
  case overlay =>
    by_cases hr : env.fs.dirExists repoDir = true
    · simp [runStep, prepare_overlay_directory, hr, dryRunBenign, Effect.isProcCall,
        Effect.isFsMutation, Effect.isDirCreation]
    · simp [runStep, prepare_overlay_directory, hr] at h
  case menuconfig =>
    by_cases hr : env.fs.dirExists repoDir = true
    · simp [runStep, run_menuconfig, run_command, hr, dryRunBenign, Effect.isProcCall,
        Effect.isFsMutation, Effect.isDirCreation]
    · simp [runStep, run_menuconfig, hr] at h
  case build =>
    by_cases hr : env.fs.dirExists repoDir = true
    · simp [runStep, build_firmware, run_command, hr, dryRunBenign, Effect.isProcCall,
        Effect.isFsMutation, Effect.isDirCreation]
    · simp [runStep, build_firmware, hr] at h
  case verify =>
    by_cases hr : env.fs.dirExists repoDir = true
    · rcases hg : env.globMatches with _ | ⟨a, rest⟩
      · simp [runStep, verify_artifacts, hr, hg, dryRunBenign, Effect.isProcCall,
          Effect.isFsMutation, Effect.isDirCreation]
      · simp [runStep, verify_artifacts, hr, hg, dryRunBenign, Effect.isProcCall,
          Effect.isFsMutation, Effect.isDirCreation]
    · simp [runStep, verify_artifacts, hr] at h

/-- Witness for claim C1's amended theorem at a concrete input. -/
theorem c1_dry_run_creates_dirs_only_witness :
    dryRunBenign (runStep .backup envBase true) = true :=
  c1_dry_run_creates_dirs_only .backup envBase (by rfl)

/-! ## Claim C6 — CLI exit codes -/

/-- Environment in which `git` does not resolve, so preflight fails. -/
def envNoGit : Env := { envBase with toolOnPath := fun t => t != "git" }

/-- Claim C6 counterexample: a recognized single-step keyword whose step fails
internally does NOT yield exit code 0 — `main` only guards the `full` path;
`preflight`'s `RuntimeError` escapes `main`, the summary is never printed and
the interpreter exits abnormally. -/
theorem c6_cex_single_step_failure_escapes_main :
    mainRun ["build_manager.py", "preflight"] envNoGit false = MainOutcome.uncaught .preflight ∧
    MainOutcome.uncaught .preflight ≠ MainOutcome.exitCode 0 := by
  refine ⟨by decide, by decide⟩

/-- Claim C6 (amended): an unknown keyword exits 1 with an error log; the
`full` keyword always exits 0 (failures are swallowed inside the workflow
loop); any other recognized keyword exits 0 — printing the summary — exactly
when its step returns normally, and otherwise the raised condition propagates
out of `main` (abnormal, non-zero termination). -/
theorem c6_cli_exit_codes (prog kw : String) (rest : List String) (env : Env) (d : Bool) :
    (commandFor (lowerStr kw) = none → mainRun (prog :: kw :: rest) env d = .exitCode 1) ∧
    (commandFor (lowerStr kw) = some .full → mainRun (prog :: kw :: rest) env d = .exitCode 0) ∧
    (∀ s : Step, commandFor (lowerStr kw) = some (.step s) →
      (mainRun (prog :: kw :: rest) env d = .exitCode 0 ↔ (runStep s env d).ok = true) ∧
      ((runStep s env d).ok = false → mainRun (prog :: kw :: rest) env d = .uncaught s)) := by
  refine ⟨fun h => by simp [mainRun, h], fun h => by simp [mainRun, h], ?_⟩
  intro s h
  refine ⟨⟨fun he => ?_, fun hok => by simp [mainRun, h, hok]⟩, fun hok => ?_⟩
  · by_cases hok : (runStep s env d).ok = true
    · exact hok
    · simp [mainRun, h, hok] at he
  · simp [mainRun, h, hok]

/-- Witness for claim C6's amended theorem at a concrete input: `verify` in
dry-run with the repository present returns normally, so the exit code is 0. -/
theorem c6_cli_exit_codes_witness :
    mainRun ["build_manager.py", "verify"] envBase true = MainOutcome.exitCode 0 :=
  ((c6_cli_exit_codes "build_manager.py" "verify" [] envBase true).2.2 .verify rfl).1.mpr
    (by rfl)

/-! ## Claim C7 — artefact verification -/

/-- Claim C7 counterexample: with zero glob matches and dry-run on, the step
records simulated success but reports NO checksum value at all — in
particular not the all-zero placeholder, which is only logged when dry-run
finds a match. -/
theorem c7_cex_dry_no_match_reports_no_checksum :
    (verify_artifacts envBase true).records = [("Artefact verification", "OK (simulated)")] ∧
    reportedChecksums (verify_artifacts envBase true).effects = [] ∧
    zeros64 ∉ reportedChecksums (verify_artifacts envBase true).effects := by
  refine ⟨rfl, by decide, by decide⟩

/-- Claim C7 (amended): Verify Artifacts is fatal (no record) when the repo is
absent; fatal with a FAILED record when there is no match and dry-run is off;
on no match with dry-run on it records simulated success with a warning but
reports no checksum value; with matches it picks the first
most-recently-modified one and reports its SHA-256 (the all-zero placeholder
instead when dry-run is on). -/
theorem c7_verify_artifacts_behaviour (env : Env) (d : Bool) :
    (env.fs.dirExists repoDir = false →
      (verify_artifacts env d).ok = false ∧ (verify_artifacts env d).records = []) ∧
    (env.fs.dirExists repoDir = true → env.globMatches = [] → d = false →
      (verify_artifacts env d).ok = false ∧
      (verify_artifacts env d).records = [("Artefact verification", "FAILED")]) ∧
    (env.fs.dirExists repoDir = true → env.globMatches = [] → d = true →
      (verify_artifacts env d).ok = true ∧
      (verify_artifacts env d).records = [("Artefact verification", "OK (simulated)")] ∧
      reportedChecksums (verify_artifacts env d).effects = []) ∧
    (∀ (a : Artifact) (rest : List Artifact),
      env.fs.dirExists repoDir = true → env.globMatches = a :: rest →
      (verify_artifacts env d).ok = true ∧
      (verify_artifacts env d).records = [("Artefact verification", "OK")] ∧
      Effect.logE "OK" ("Latest artefact: " ++ (maxByMtime a rest).path)
        ∈ (verify_artifacts env d).effects ∧
      Effect.logE "OK" ("SHA256: " ++
          (if d then zeros64 else env.sha256 (maxByMtime a rest).data))
        ∈ (verify_artifacts env d).effects) := by
  refine ⟨fun h => ?_, fun hr h2 h3 => ?_, fun hr h2 h3 => ?_, fun a rest hr hg => ?_⟩
  · simp [verify_artifacts, h]
  · subst h3; simp [verify_artifacts, hr, h2]
  · subst h3
    refine ⟨?_, ?_, ?_⟩
    · simp [verify_artifacts, hr, h2]
    · simp [verify_artifacts, hr, h2]
    · have heffs : (verify_artifacts env true).effects =
          [Effect.logE "INFO" "Verifying build artefacts and checksum.",
           Effect.logE "WARN" "Dry-run mode: no artefacts present; using placeholder checksum."] := by
        simp [verify_artifacts, hr, h2]
      rw [heffs]
      decide
  · cases d
    · simp [verify_artifacts, hr, hg]
    · simp [verify_artifacts, hr, hg]

/-- Witness for claim C7's amended theorem at a concrete input (repo present,
no matches, dry-run off: fatal with a FAILED record). -/
theorem c7_verify_artifacts_behaviour_witness :
    (verify_artifacts envBase false).ok = false ∧
    (verify_artifacts envBase false).records = [("Artefact verification", "FAILED")] :=
  (c7_verify_artifacts_behaviour envBase false).2.1 rfl rfl rfl

/-! ## Claim C9 — backup checksum manifest -/

/-- The directory entries that get a manifest line, in the order the source
iterates them: sorted, manifest file and directories skipped. -/
def qualifyingSorted (entries : List DirEntry) : List DirEntry :=
  (List.insertionSort entryLe entries).filter (fun e => !(e.name = checksumsName) && !e.isDir)

theorem checksumLines_eq (sha : String → String) (entries : List DirEntry) :
    checksumLines sha entries =
      (qualifyingSorted entries).map (fun e => sha e.content ++ "  " ++ e.name) := rfl

instance : IsTotal DirEntry entryLe := ⟨fun a b => le_total a.name b.name⟩

instance : IsTrans DirEntry entryLe := ⟨fun _ _ _ hab hbc => le_trans hab hbc⟩

theorem qualifyingSorted_names_sorted (entries : List DirEntry) :
    List.Sorted (· ≤ ·) ((qualifyingSorted entries).map DirEntry.name) := by
  have h1 : List.Sorted entryLe (List.insertionSort entryLe entries) :=
    List.sorted_insertionSort entryLe entries
  have h2 : List.Sorted entryLe (qualifyingSorted entries) := List.Pairwise.filter _ h1
  exact List.pairwise_map.mpr h2

theorem mem_qualifyingSorted (entries : List DirEntry) (e : DirEntry)
    (he : e ∈ entries) (hd : e.isDir = false) (hn : e.name ≠ checksumsName) :
    e ∈ qualifyingSorted entries := by
  unfold qualifyingSorted
  rw [List.mem_filter]
  refine ⟨(List.perm_insertionSort entryLe entries).mem_iff.mpr he, ?_⟩
  simp [hd, hn]

theorem qualifyingSorted_names_nodup (entries : List DirEntry)
    (h : (entries.map DirEntry.name).Nodup) :
    ((qualifyingSorted entries).map DirEntry.name).Nodup := by
  have hperm : List.Perm ((List.insertionSort entryLe entries).map DirEntry.name)
      (entries.map DirEntry.name) := (List.perm_insertionSort entryLe entries).map _
  have h1 : ((List.insertionSort entryLe entries).map DirEntry.name).Nodup :=
    hperm.nodup_iff.mpr h
  exact List.Nodup.sublist
    (List.Sublist.map DirEntry.name (List.filter_sublist _)) h1

/-- Two manifest lines built from fixed-width digests agree only when the
filenames agree. -/
theorem manifest_line_inj (sha : String → String) (h64 : ∀ s, (sha s).data.length = 64)
    (c₁ n₁ c₂ n₂ : String) (h : sha c₁ ++ "  " ++ n₁ = sha c₂ ++ "  " ++ n₂) : n₁ = n₂ := by
  have hd : ((sha c₁ ++ "  ") ++ n₁).data = ((sha c₂ ++ "  ") ++ n₂).data :=
    congrArg String.data h
  rw [String.data_append, String.data_append] at hd
  have hlen : (sha c₁ ++ "  ").data.length = (sha c₂ ++ "  ").data.length := by
    rw [String.data_append, String.data_append, List.length_append, List.length_append,
      h64 c₁, h64 c₂]
  exact String.ext (List.append_inj hd hlen).2

theorem checksumLines_nodup (sha : String → String) (entries : List DirEntry)
    (h64 : ∀ s, (sha s).data.length = 64)
    (hnd : (entries.map DirEntry.name).Nodup) :
    (checksumLines sha entries).Nodup := by
  rw [checksumLines_eq]
  have hnames := qualifyingSorted_names_nodup entries hnd
  have hpw : List.Pairwise (fun a b : DirEntry => a.name ≠ b.name) (qualifyingSorted entries) :=
    List.pairwise_map.mp hnames
  refine List.pairwise_map.mpr (hpw.imp ?_)
  intro a b hab hfmt
  exact hab (manifest_line_inj sha h64 a.content a.name b.content b.name hfmt)

/-- Claim C9: after a non-dry-run Backup step, the `checksums.sha256` manifest
holds, for every non-manifest non-directory entry of the backup directory,
exactly one line `<sha256>  <filename>`; the lines appear sorted by filename;
and every line arises from such a file (no extra lines). -/
theorem c9_manifest_lines (sha : String → String) (entries : List DirEntry)
    (h64 : ∀ s, (sha s).data.length = 64)
    (hnd : (entries.map DirEntry.name).Nodup) :
    List.Sorted (· ≤ ·) ((qualifyingSorted entries).map DirEntry.name) ∧
    checksumLines sha entries =
      (qualifyingSorted entries).map (fun e => sha e.content ++ "  " ++ e.name) ∧
    (∀ e ∈ entries, e.isDir = false → e.name ≠ checksumsName →
      (checksumLines sha entries).count (sha e.content ++ "  " ++ e.name) = 1) ∧
    (∀ l ∈ checksumLines sha entries, ∃ e, e ∈ entries ∧ e.isDir = false ∧
      e.name ≠ checksumsName ∧ l = sha e.content ++ "  " ++ e.name) := by
  refine ⟨qualifyingSorted_names_sorted entries, checksumLines_eq sha entries, ?_, ?_⟩
  · intro e he hd hn
    have hmem : (sha e.content ++ "  " ++ e.name) ∈ checksumLines sha entries := by
      rw [checksumLines_eq]
      exact List.mem_map_of_mem _ (mem_qualifyingSorted entries e he hd hn)
    exact List.count_eq_one_of_mem (checksumLines_nodup sha entries h64 hnd) hmem
  · intro l hl
    rw [checksumLines_eq] at hl
    obtain ⟨e, heq, hfmt⟩ := List.mem_map.mp hl
    have hq := heq
    unfold qualifyingSorted at hq
    rw [List.mem_filter] at hq
    obtain ⟨hsorted, hcond⟩ := hq
    have hent : e ∈ entries := (List.perm_insertionSort entryLe entries).mem_iff.mp hsorted
    simp only [Bool.and_eq_true, Bool.not_eq_true', decide_eq_false_iff_not] at hcond
    refine ⟨e, hent, hcond.2, ?_, hfmt.symm⟩
    intro hx
    exact absurd hx (by simpa using hcond.1)

/-- Concrete inputs for the claim C9 witness. -/
def shaW : String → String := fun _ => zeros64

def entriesW : List DirEntry :=
  [⟨"proc-mtd.txt", false, "mtd"⟩, ⟨"dmesg.txt", false, "log"⟩, ⟨"sub", true, ""⟩,
   ⟨"checksums.sha256", false, "m"⟩]

/-- Witness for claim C9 at a concrete directory listing. -/
theorem c9_manifest_lines_witness :
    (checksumLines shaW entriesW).count (shaW "log" ++ "  " ++ "dmesg.txt") = 1 ∧
    List.Sorted (· ≤ ·) ((qualifyingSorted entriesW).map DirEntry.name) :=
  ⟨(c9_manifest_lines shaW entriesW (fun _ => (by decide : zeros64.data.length = 64))
      (by decide)).2.2.1 ⟨"dmesg.txt", false, "log"⟩ (by decide) rfl (by decide),
   (c9_manifest_lines shaW entriesW (fun _ => (by decide : zeros64.data.length = 64))
      (by decide)).1⟩

/-! ## Claim C10 — Apply Config idempotence -/

theorem isInfixOfL_append_left (n l : List Char) (h : isInfixOfL n l = true) :
    ∀ p : List Char, isInfixOfL n (p ++ l) = true := by
  intro p
  induction p with
  | nil => simpa using h
  | cons x xs ih =>
    simp only [List.cons_append, isInfixOfL, Bool.or_eq_true]
    exact Or.inr ih

theorem containsSub_append_left (n p l : String) (h : containsSub n l = true) :
    containsSub n (p ++ l) = true := by
  unfold containsSub at h ⊢
  rw [String.data_append]
  exact isInfixOfL_append_left n.data l.data h p.data

theorem marker_infix_stanza : containsSub deviceMarker stanza = true := by decide

theorem dts_content_ne_empty : dts_content ≠ "" := by decide

theorem dtsPath_ne_makefilePath : dtsPath ≠ makefilePath := by decide

/-- After one non-dry `apply_custom_configs` run on a tree with the repository
and `generic.mk` present, the tree is patched: the DTS file holds exactly
`dts_content` and the makefile contains the device marker. -/
theorem configs_first_run (env : Env) (mk : String)
    (hr : env.fs.dirExists repoDir = true)
    (hmk : env.fs.read makefilePath = some mk) :
    (apply_custom_configs env false).ok = true ∧
    (apply_custom_configs env false).fs.dirExists repoDir = true ∧
    (apply_custom_configs env false).fs.read dtsPath = some dts_content ∧
    ∃ mk2, (apply_custom_configs env false).fs.read makefilePath = some mk2 ∧
      containsSub deviceMarker mk2 = true := by
  unfold apply_custom_configs
  simp only [hr, Bool.not_true, Bool.false_eq_true, if_false]
  by_cases hdts : (env.fs.read dtsPath).getD "" = dts_content
  · -- DTS already up to date: no write happens
    have hread : env.fs.read dtsPath = some dts_content := by
      rcases hcur : env.fs.read dtsPath with _ | cur
      · rw [hcur] at hdts
        exact absurd hdts.symm dts_content_ne_empty
      · rw [hcur] at hdts
        simp only [Option.getD_some] at hdts
        rw [hdts]
    simp only [hdts, ne_eq, not_true_eq_false, Bool.false_eq_true, if_false, hmk]
    by_cases hc : containsSub deviceMarker mk = true
    · simp only [hc, Bool.not_true, Bool.false_eq_true, if_false]
      exact ⟨trivial, hr, hread, mk, hmk, hc⟩
    · simp only [Bool.not_eq_true] at hc
      simp only [hc, Bool.not_false, if_true]
      refine ⟨trivial, hr, ?_, mk ++ "\n" ++ stanza, ?_, ?_⟩
      · rw [FS.read_writeF_ne _ _ _ _ dtsPath_ne_makefilePath]
        exact hread
      · exact FS.read_writeF_self env.fs makefilePath (mk ++ "\n" ++ stanza)
      · exact containsSub_append_left deviceMarker (mk ++ "\n") stanza marker_infix_stanza
  · -- DTS differs (or is absent): it is rewritten
    simp only [ne_eq, hdts, not_false_eq_true, if_true]
    have hmk2 : (((env.fs.mkdirp (parentOf dtsPath)).writeF dtsPath dts_content).read
        makefilePath) = some mk := by
      rw [FS.read_writeF_ne _ _ _ _ (Ne.symm dtsPath_ne_makefilePath), FS.read_mkdirp]
      exact hmk
    simp only [hmk2]
    have hdread : (((env.fs.mkdirp (parentOf dtsPath)).writeF dtsPath dts_content).read
        dtsPath) = some dts_content := FS.read_writeF_self _ _ _
    have hdirs : (((env.fs.mkdirp (parentOf dtsPath)).writeF dtsPath
        dts_content).dirExists repoDir) = true := by
      rw [FS.dirExists_writeF]
      exact FS.dirExists_mkdirp_mono env.fs (parentOf dtsPath) repoDir hr
    by_cases hc : containsSub deviceMarker mk = true
    · simp only [hc, Bool.not_true, Bool.false_eq_true, if_false]
      exact ⟨trivial, hdirs, hdread, mk, hmk2, hc⟩
    · simp only [Bool.not_eq_true] at hc
      simp only [hc, Bool.not_false, if_true]
      refine ⟨trivial, ?_, ?_, mk ++ "\n" ++ stanza, ?_, ?_⟩
      · rw [FS.dirExists_writeF]
        exact hdirs
      · rw [FS.read_writeF_ne _ _ _ _ dtsPath_ne_makefilePath]
        exact hdread
      · exact FS.read_writeF_self _ _ _
      · exact containsSub_append_left deviceMarker (mk ++ "\n") stanza marker_infix_stanza

/-- A second `apply_custom_configs` run on an already-patched tree changes
nothing and logs the two "already" messages. -/
theorem configs_second_run (env2 : Env)
    (hr : env2.fs.dirExists repoDir = true)
    (hdts : env2.fs.read dtsPath = some dts_content)
    (hmk : ∃ mk, env2.fs.read makefilePath = some mk ∧ containsSub deviceMarker mk = true) :
    (apply_custom_configs env2 false).fs = env2.fs ∧
    (apply_custom_configs env2 false).ok = true ∧
    Effect.logE "OK" "RA74 DTS already up to date." ∈ (apply_custom_configs env2 false).effects ∧
    Effect.logE "OK" "RA74 device stanza already present in generic.mk."
      ∈ (apply_custom_configs env2 false).effects := by
  obtain ⟨mk, hm, hc⟩ := hmk
  unfold apply_custom_configs
  simp only [hr, Bool.not_true, Bool.false_eq_true, if_false, hdts, Option.getD_some,
    ne_eq, not_true_eq_false, if_false, hm, hc, Bool.not_true]
  simp

/-- Claim C10: `apply_custom_configs` is idempotent.  On any tree with the
repository and `generic.mk` present, the first (non-dry) run patches the tree;
the second run performs no write at all — its resulting filesystem equals the
first run's — and it logs "RA74 DTS already up to date." and "RA74 device
stanza already present in generic.mk.". -/
theorem c10_apply_configs_idempotent (env : Env) (mk : String)
    (hr : env.fs.dirExists repoDir = true)
    (hmk : env.fs.read makefilePath = some mk) :
    (apply_custom_configs env false).ok = true ∧
    (apply_custom_configs (envWithFS env (apply_custom_configs env false).fs) false).ok = true ∧
    (apply_custom_configs (envWithFS env (apply_custom_configs env false).fs) false).fs =
      (apply_custom_configs env false).fs ∧
    Effect.logE "OK" "RA74 DTS already up to date."
      ∈ (apply_custom_configs (envWithFS env (apply_custom_configs env false).fs) false).effects ∧
    Effect.logE "OK" "RA74 device stanza already present in generic.mk."
      ∈ (apply_custom_configs (envWithFS env (apply_custom_configs env false).fs) false).effects
    := by
  obtain ⟨h1ok, h1r, h1d, h1m⟩ := configs_first_run env mk hr hmk
  have h2 := configs_second_run (envWithFS env (apply_custom_configs env false).fs) h1r h1d h1m
  exact ⟨h1ok, h2.2.1, h2.1, h2.2.2.1, h2.2.2.2⟩

/-- Concrete starting tree for the claim C10 witness: repository present,
empty `generic.mk`, no DTS yet. -/
def envC10 : Env :=
  { envBase with fs :=
    { files := [(makefilePath, "")], mtimes := [(makefilePath, 1)], dirs := [buildRoot, repoDir] } }

/-- Witness for claim C10 at a concrete tree. -/
theorem c10_apply_configs_idempotent_witness :
    (apply_custom_configs envC10 false).ok = true ∧
    (apply_custom_configs (envWithFS envC10 (apply_custom_configs envC10 false).fs) false).ok
      = true ∧
    (apply_custom_configs (envWithFS envC10 (apply_custom_configs envC10 false).fs) false).fs =
      (apply_custom_configs envC10 false).fs ∧
    Effect.logE "OK" "RA74 DTS already up to date."
      ∈ (apply_custom_configs (envWithFS envC10 (apply_custom_configs envC10 false).fs)
          false).effects ∧
    Effect.logE "OK" "RA74 device stanza already present in generic.mk."
      ∈ (apply_custom_configs (envWithFS envC10 (apply_custom_configs envC10 false).fs)
          false).effects :=
  c10_apply_configs_idempotent envC10 "" rfl rfl

end BuildManager
